import Mathlib

/-!
Verification of the socket scheme engine of the netstack repository
(`src/smolnetd/scheme/socket.rs`) and its UDP protocol adapter
(`src/smolnetd/scheme/udp.rs`), as a shallow embedding in Lean 4.

Machine integers (`usize`, `u32`, `u8`, `i64`, `i32`) are embedded as
`Nat`/`Int`; the only places where wrap-around matters are the
`(-errno) as usize` reply encoding and the `!O_ACCMODE` mask, which are
taken modulo `2^64` explicitly.  Fallible Rust functions returning
`syscall::Result` become `Except Nat`, carrying the errno.
-/

/-! ## Constants from the redox `syscall` crate -/

def EACCES : Nat := 13
def EBADF : Nat := 9
def EAGAIN : Nat := 11
def EINVAL : Nat := 22
def EADDRINUSE : Nat := 98
def EADDRNOTAVAIL : Nat := 99
def errno.EIO : Nat := 5
def ETIMEDOUT : Nat := 110

def EVENT_READ : Nat := 1
def EVENT_WRITE : Nat := 2

def O_NONBLOCK : Nat := 0x40000
def O_ACCMODE : Nat := 0x30000

def F_GETFL : Nat := 3
def F_SETFL : Nat := 4

/-- Verb code of `SYS_READ` (`SYS_CLASS_FILE | SYS_ARG_MSLICE | 3`). -/
def SYS_READ : Nat := 0x23000003

/-- Verb code of `SYS_WRITE` (`SYS_CLASS_FILE | SYS_ARG_SLICE | 4`). -/
def SYS_WRITE : Nat := 0x22000004

/-- `usize` arithmetic is modulo `2^64`. -/
def USIZE_MOD : Nat := 2 ^ 64

/-- The reply encoding `(-err) as usize` used for negative error returns. -/
def negRet (e : Nat) : Nat := USIZE_MOD - e

/-- Bitwise complement on `usize`: `!x` for a mask `x < 2^64`. -/
def usizeNot (x : Nat) : Nat := USIZE_MOD - 1 - x

/-! ## Association-list maps

`BTreeMap<usize, _>` is embedded as an association list with
insert-overwrites semantics; all engine observations go through
`lookupA` / `removeA` / membership, for which the embedding agrees with
the B-tree. -/

def lookupA {α : Type} (l : List (Nat × α)) (k : Nat) : Option α :=
  (l.find? (fun p => p.1 == k)).map (fun p => p.2)

def removeA {α : Type} (l : List (Nat × α)) (k : Nat) : List (Nat × α) :=
  l.filter (fun p => p.1 != k)

def insertA {α : Type} (l : List (Nat × α)) (k : Nat) (v : α) : List (Nat × α) :=
  (k, v) :: removeA l k

theorem lookupA_cons {α : Type} (hd : Nat × α) (tl : List (Nat × α)) (fd : Nat) :
    lookupA (hd :: tl) fd = if hd.1 = fd then some hd.2 else lookupA tl fd := by
  by_cases h : hd.1 = fd <;> simp [lookupA, List.find?_cons, h]

theorem lookupA_insertA_self {α : Type} (l : List (Nat × α)) (k : Nat) (v : α) :
    lookupA (insertA l k v) k = some v := by
  simp [insertA, lookupA_cons]

theorem lookupA_removeA_ne {α : Type} (l : List (Nat × α)) (k fd : Nat) (hne : fd ≠ k) :
    lookupA (removeA l k) fd = lookupA l fd := by
  induction l with
  | nil => rfl
  | cons hd tl ih =>
    by_cases h1 : hd.1 = k
    · rw [show removeA (hd :: tl) k = removeA tl k by
        simp [removeA, List.filter_cons, h1]]
      rw [ih, lookupA_cons]
      have hfd : ¬hd.1 = fd := by rw [h1]; exact fun h => hne h.symm
      simp [hfd]
    · rw [show removeA (hd :: tl) k = hd :: removeA tl k by
        simp [removeA, List.filter_cons, h1]]
      rw [lookupA_cons, lookupA_cons, ih]

theorem lookupA_insertA_ne {α : Type} (l : List (Nat × α)) (k fd : Nat) (v : α)
    (hne : fd ≠ k) : lookupA (insertA l k v) fd = lookupA l fd := by
  rw [insertA, lookupA_cons]
  rw [if_neg (fun h => hne h.symm)]
  exact lookupA_removeA_ne l k fd hne

/-! ## Time (`syscall::data::TimeSpec`) -/

/-- `TimeSpec { tv_sec: i64, tv_nsec: i32 }`; `size_of::<TimeSpec>() = 16`. -/
structure TimeSpec where
  sec : Int
  nsec : Int
deriving DecidableEq, Repr, Inhabited

/-- Byte size of `TimeSpec` (`mem::size_of::<TimeSpec>()`). -/
def timeSpecSize : Nat := 16

/-- The deadline comparison of `notify_sockets`:
`until.tv_sec < cur.tv_sec || (until.tv_sec == cur.tv_sec && until.tv_nsec < cur.tv_nsec)`. -/
def tsLt (a b : TimeSpec) : Bool :=
  a.sec < b.sec || (a.sec == b.sec && a.nsec < b.nsec)

def i64ToLeBytes (x : Int) : List Nat :=
  let u := (x % (2 ^ 64 : Int)).toNat
  (List.range 8).map (fun i => u / 256 ^ i % 256)

def i32ToLeBytes (x : Int) : List Nat :=
  let u := (x % (2 ^ 32 : Int)).toNat
  (List.range 4).map (fun i => u / 256 ^ i % 256)

def leBytesToNat (l : List Nat) : Nat :=
  l.foldr (fun b acc => acc * 256 + b % 256) 0

def i64FromLeBytes (l : List Nat) : Int :=
  let u := leBytesToNat (l.take 8)
  if u < 2 ^ 63 then (u : Int) else (u : Int) - 2 ^ 64

def i32FromLeBytes (l : List Nat) : Int :=
  let u := leBytesToNat (l.take 4)
  if u < 2 ^ 31 then (u : Int) else (u : Int) - 2 ^ 32

/-- In-memory layout of a `TimeSpec` (8 bytes `tv_sec`, 4 bytes `tv_nsec`,
4 bytes of `repr(C)` padding, modelled as zero). -/
def TimeSpec.toBytes (t : TimeSpec) : List Nat :=
  i64ToLeBytes t.sec ++ i32ToLeBytes t.nsec ++ [0, 0, 0, 0]

def TimeSpec.fromBytes (l : List Nat) : TimeSpec :=
  { sec := i64FromLeBytes (l.take 8), nsec := i32FromLeBytes ((l.drop 8).take 4) }

/-! ## Request packets (`syscall::Packet`) -/

structure Packet where
  id : Nat
  pid : Nat
  uid : Nat
  gid : Nat
  a : Nat
  b : Nat
  c : Nat
  d : Nat
deriving DecidableEq, Repr, Inhabited

/-! ## Endpoints (`smoltcp::wire::IpEndpoint`) -/

/-- An IP endpoint; the address is embedded as a `Nat` whose value `0`
stands for the unspecified address (`0.0.0.0`). -/
structure IpEndpoint where
  addr : Nat
  port : Nat
deriving DecidableEq, Repr, Inhabited

/-- `IpEndpoint::is_specified`: a specified (non-wildcard) address and a
non-zero port. -/
def IpEndpoint.is_specified (e : IpEndpoint) : Bool :=
  e.addr != 0 && e.port != 0

/-- Split a character list at every occurrence of `c` (the embedding of
Rust's `str::split`, structurally recursive so that it evaluates inside
the kernel).  `split '/' "" = [""]`, `split '/' "a/b" = ["a", "b"]`. -/
def splitChar (c : Char) : List Char → List (List Char)
  | [] => [[]]
  | x :: xs =>
    let r := splitChar c xs
    if x = c then [] :: r
    else
      match r with
      | [] => [[x]]
      | hd :: tl => (x :: hd) :: tl

/-- `str::split` on a `String`. -/
def splitStr (c : Char) (s : String) : List String :=
  (splitChar c s.data).map String.mk

def digitsAux : List Char → Nat → Option Nat
  | [], acc => some acc
  | c :: cs, acc =>
    if 48 ≤ c.toNat ∧ c.toNat ≤ 57 then digitsAux cs (acc * 10 + (c.toNat - 48))
    else none

/-- Decimal parse of a string; `none` when empty or not all digits. -/
def parseNat? (s : String) : Option Nat :=
  match s.data with
  | [] => none
  | l => digitsAux l 0

/-- Modelled from the spec: the dotted-quad address parser used by
`parse_endpoint`, which lives in `scheme/mod.rs` and is not under `src/`.
An unparsable or wildcard address is the unspecified address `0`. -/
def parseAddr (s : String) : Nat :=
  match (splitStr '.' s).mapM parseNat? with
  | some [a, b, c, d] =>
    if a < 256 && b < 256 && c < 256 && d < 256 then
      ((a * 256 + b) * 256 + c) * 256 + d
    else 0
  | _ => 0

/-- Modelled from the spec: `parse_endpoint` lives in `scheme/mod.rs`,
which is not under `src/`.  Spec path grammar: an endpoint is
`ADDR:PORT` or empty, and an empty or malformed side is unspecified. -/
def parse_endpoint (s : String) : IpEndpoint :=
  match splitStr ':' s with
  | [a, p] => { addr := parseAddr a, port := (parseNat? p).getD 0 }
  | _ => { addr := 0, port := 0 }

/-! ## The UDP protocol socket (`smoltcp::socket::UdpSocket`)

The stack-owned socket is external to the repository; it is embedded by
its observable state: optional hop limit, bound local endpoint, receive
queue, transmit-capacity flag and transmit queue. -/

structure UdpSock where
  hop_limit : Option Nat
  endpoint : IpEndpoint
  rx_queue : List (List Nat × IpEndpoint)
  tx_open : Bool
  tx_queue : List (List Nat × IpEndpoint)
deriving DecidableEq, Repr, Inhabited

/-- A freshly constructed `UdpSocket::new(rx, tx)`: nothing received yet
and room to transmit. -/
def UdpSock.new : UdpSock :=
  { hop_limit := none, endpoint := { addr := 0, port := 0 },
    rx_queue := [], tx_open := true, tx_queue := [] }

def UdpSock.can_send (s : UdpSock) : Bool := s.tx_open

def UdpSock.can_recv (s : UdpSock) : Bool := !s.rx_queue.isEmpty

def UdpSock.may_recv (_ : UdpSock) : Bool := true

/-- The trait's `hop_limit`: `self.hop_limit().unwrap_or(64)`. -/
def UdpSock.hopLimitOr64 (s : UdpSock) : Nat := s.hop_limit.getD 64

/-! ## The interface socket set (`SmolnetInterface`) -/

structure Iface where
  sockets : List (Nat × UdpSock)
  next_handle : Nat
deriving DecidableEq, Repr, Inhabited

/-- `iface.get_socket::<SocketT>(handle)`; the source panics on a
dangling handle, which the embedding maps to a default socket. -/
def Iface.get_socket (i : Iface) (h : Nat) : UdpSock :=
  (lookupA i.sockets h).getD UdpSock.new

def Iface.add_socket (i : Iface) (s : UdpSock) : Nat × Iface :=
  (i.next_handle,
   { sockets := insertA i.sockets i.next_handle s, next_handle := i.next_handle + 1 })

def Iface.set_socket (i : Iface) (h : Nat) (f : UdpSock → UdpSock) : Iface :=
  { i with sockets := insertA i.sockets h (f (i.get_socket h)) }

def Iface.remove_socket (i : Iface) (h : Nat) : Iface :=
  { i with sockets := removeA i.sockets h }

/-! ## The port set (UDP scheme data) -/

/-- Modelled from the spec: `PortSet` lives in `port_set.rs`, which is
not under `src/`.  Spec: a refcounted set of claimed ports over the
ephemeral range; `get_port` allocates a free ephemeral port, `claim_port`
claims a named port and reports a conflict, `acquire_port` increments the
refcount and `release_port` decrements it, freeing the port at zero. -/
structure PortSet where
  lo : Nat
  hi : Nat
  ports : List (Nat × Nat)
deriving DecidableEq, Repr, Inhabited

def PortSet.new (lo hi : Nat) : PortSet := { lo, hi, ports := [] }

def PortSet.get_port (ps : PortSet) : Option (Nat × PortSet) :=
  match (List.range' ps.lo (ps.hi + 1 - ps.lo)).find?
      (fun p => (lookupA ps.ports p).isNone) with
  | none => none
  | some p => some (p, { ps with ports := insertA ps.ports p 1 })

def PortSet.claim_port (ps : PortSet) (p : Nat) : Bool × PortSet :=
  match lookupA ps.ports p with
  | some _ => (false, ps)
  | none => (true, { ps with ports := insertA ps.ports p 1 })

def PortSet.acquire_port (ps : PortSet) (p : Nat) : PortSet :=
  { ps with ports := insertA ps.ports p ((lookupA ps.ports p).getD 0 + 1) }

def PortSet.release_port (ps : PortSet) (p : Nat) : PortSet :=
  match lookupA ps.ports p with
  | some n =>
    if n ≤ 1 then { ps with ports := removeA ps.ports p }
    else { ps with ports := insertA ps.ports p (n - 1) }
  | none => ps

/-! ## Handle descriptors -/

structure NullFile where
  flags : Nat
  uid : Nat
  gid : Nat
deriving DecidableEq, Repr, Inhabited

/-- `SocketFile<DataT>` at the UDP instantiation `DataT = IpEndpoint`. -/
structure SocketFile where
  flags : Nat
  data : IpEndpoint
  events : Nat
  socket_handle : Nat
  read_notified : Bool
  write_notified : Bool
  read_timeout : Option TimeSpec
  write_timeout : Option TimeSpec
deriving DecidableEq, Repr, Inhabited

def SocketFile.clone_with_data (f : SocketFile) (data : IpEndpoint) : SocketFile :=
  { flags := f.flags, events := f.events,
    read_notified := false, write_notified := false,
    read_timeout := f.read_timeout, write_timeout := f.write_timeout,
    socket_handle := f.socket_handle, data }

def SocketFile.new_with_data (socket_handle : Nat) (data : IpEndpoint) : SocketFile :=
  { flags := 0, events := 0, read_notified := false, write_notified := false,
    read_timeout := none, write_timeout := none, socket_handle, data }

/-- `Setting<SettingT>` at the UDP instantiation `SettingT = ()`. -/
inductive Setting where
  | ttl : Setting
  | readTimeout : Setting
  | writeTimeout : Setting
  | other : Unit → Setting
deriving DecidableEq, Repr

structure SettingFile where
  fd : Nat
  socket_handle : Nat
  setting : Setting
deriving DecidableEq, Repr

inductive SchemeFile where
  | setting : SettingFile → SchemeFile
  | socket : SocketFile → SchemeFile
deriving DecidableEq, Repr

def SchemeFile.socket_handle : SchemeFile → Nat
  | .setting s => s.socket_handle
  | .socket f => f.socket_handle

/-- `SchemeFile::events`: the edge-triggered notifier evaluation.  The
stack socket is represented by its three readiness predicates
(`can_recv`, `may_recv`, `can_send`), which is all the source reads of
it.  Returns the emitted event bits and the updated file. -/
def SchemeFile.events (canRecv mayRecv canSend : Bool) :
    SchemeFile → Nat × SchemeFile
  | .setting s => (0, .setting s)
  | .socket f =>
    let (read_notified, revents1) :=
      if (f.events &&& EVENT_READ == EVENT_READ) && (canRecv || !mayRecv) then
        if !f.read_notified then (true, EVENT_READ) else (f.read_notified, 0)
      else (false, 0)
    let (write_notified, revents2) :=
      if (f.events &&& EVENT_WRITE == EVENT_WRITE) && canSend then
        if !f.write_notified then (true, revents1 ||| EVENT_WRITE)
        else (f.write_notified, revents1)
      else (false, revents1)
    (revents2, .socket { f with read_notified, write_notified })

/-! ## The wait queue -/

structure WaitHandle where
  until' : Option TimeSpec
  packet : Packet
deriving DecidableEq, Repr, Inhabited

/-- The wait-queue walk of `SocketScheme::notify_sockets` (the loop after
the event-notifier pass).  `step` stands for re-invoking the engine on a
stored packet via the external `SchemeBlockMut::handle` dispatcher; it
returns the possibly changed engine state and the completion value, or
`none` when the request still blocks.  `now` is the monotonic time
sampled once at the top of the tick.  Returns the final state, the
surviving queue and the replies written, in order. -/
def waitQueueWalk {St : Type} (step : St → Packet → St × Option Nat) (now : TimeSpec) :
    St → List WaitHandle → St × List WaitHandle × List Packet
  | st, [] => (st, [], [])
  | st, w :: rest =>
    let (st1, r) := step st w.packet
    match r with
    | some a =>
      let (st2, rem, rep) := waitQueueWalk step now st1 rest
      (st2, rem, { w.packet with a := a } :: rep)
    | none =>
      match w.until' with
      | some u =>
        if tsLt u now then
          let (st2, rem, rep) := waitQueueWalk step now st1 rest
          (st2, rem, { w.packet with a := negRet ETIMEDOUT } :: rep)
        else
          let (st2, rem, rep) := waitQueueWalk step now st1 rest
          (st2, w :: rem, rep)
      | none =>
        let (st2, rem, rep) := waitQueueWalk step now st1 rest
        (st2, w :: rem, rep)

/-! ## The UDP protocol adapter (`impl SchemeSocket for UdpSocket`) -/

/-- `UdpSocket::new_socket`.  Buffer allocation is external and has no
observable state here.  Returns the new socket handle and the per-handle
remote endpoint, together with the updated interface and port set. -/
def UdpSocket.new_socket (iface : Iface) (path : String) (uid : Nat) (port_set : PortSet) :
    Except Nat ((Nat × IpEndpoint) × Iface × PortSet) :=
  let parts := splitStr '/' path
  let remote_endpoint := parse_endpoint (parts.headD "")
  let local_endpoint := parse_endpoint ((parts.drop 1).headD "")
  if local_endpoint.port > 0 && local_endpoint.port ≤ 1024 && uid != 0 then
    .error EACCES
  else
    let allocated : Except Nat (IpEndpoint × PortSet) :=
      if local_endpoint.port == 0 then
        match port_set.get_port with
        | none => .error EINVAL
        | some (p, ps) => .ok ({ local_endpoint with port := p }, ps)
      else
        match port_set.claim_port local_endpoint.port with
        | (true, ps) => .ok (local_endpoint, ps)
        | (false, _) => .error EADDRINUSE
    match allocated with
    | .error e => .error e
    | .ok (le, ps) =>
      let (socket_handle, iface1) := iface.add_socket UdpSock.new
      -- `udp_socket.bind(local_endpoint)` on the freshly added socket
      let iface2 := iface1.set_socket socket_handle (fun s => { s with endpoint := le })
      .ok ((socket_handle, remote_endpoint), iface2, ps)

/-- `UdpSocket::close_file`: for socket files, release the socket's local
port back to the port set. -/
def UdpSocket.close_file (sock : UdpSock) (file : SchemeFile) (port_set : PortSet) :
    PortSet :=
  match file with
  | .socket _ => port_set.release_port sock.endpoint.port
  | .setting _ => port_set

/-- `UdpSocket::write_buf`. -/
def UdpSocket.write_buf (sock : UdpSock) (file : SocketFile) (buf : List Nat) :
    Except Nat (Option Nat × UdpSock) :=
  if !file.data.is_specified then
    .error EADDRNOTAVAIL
  else if sock.can_send then
    .ok (some buf.length, { sock with tx_queue := sock.tx_queue ++ [(buf, file.data)] })
  else if file.flags &&& O_NONBLOCK == O_NONBLOCK then
    .error EAGAIN
  else
    .ok (none, sock)

/-- `UdpSocket::read_buf`.  `recv_slice` copies a queued datagram's
payload prefix into the buffer and returns the copied length. -/
def UdpSocket.read_buf (sock : UdpSock) (file : SocketFile) (buf : List Nat) :
    Except Nat ((Option Nat × List Nat) × UdpSock) :=
  if sock.can_recv then
    match sock.rx_queue with
    | [] => .ok ((some 0, buf), sock)
    | (payload, _) :: rest =>
      let n := min payload.length buf.length
      .ok ((some n, payload.take n ++ buf.drop n), { sock with rx_queue := rest })
  else if file.flags &&& O_NONBLOCK == O_NONBLOCK then
    .error EAGAIN
  else
    .ok ((none, buf), sock)

/-- `UdpSocket::dup`.  The source's `match path { _ => ... }` has a single
wildcard arm.  For a socket file the new handle clones the parent (with
the parsed endpoint when it is specified); for a setting file it is a
fresh `SocketFile::new_with_data` on the parsed endpoint.  The local port
is re-acquired in the port set. -/
def UdpSocket.dup (iface : Iface) (file : SchemeFile) (path : String) (port_set : PortSet) :
    Except Nat (Option (SchemeFile × Option (Nat × IpEndpoint)) × PortSet) :=
  let socket_handle := file.socket_handle
  let new_file : SchemeFile :=
    let remote_endpoint := parse_endpoint path
    match file with
    | .socket udp_handle =>
      .socket (udp_handle.clone_with_data
        (if remote_endpoint.is_specified then remote_endpoint else udp_handle.data))
    | .setting _ => .socket (SocketFile.new_with_data socket_handle remote_endpoint)
  let endpoint := (iface.get_socket socket_handle).endpoint
  let port_set1 :=
    match new_file with
    | .socket _ => port_set.acquire_port endpoint.port
    | .setting _ => port_set
  .ok (some (new_file, none), port_set1)

/-! ## The scheme engine (`SocketScheme`) -/

structure SocketScheme where
  next_fd : Nat
  nulls : List (Nat × NullFile)
  files : List (Nat × SchemeFile)
  iface : Iface
  wait_queue : List WaitHandle
  scheme_data : PortSet
deriving DecidableEq, Repr, Inhabited

/-- `SocketScheme::open`. -/
def SocketScheme.open (st : SocketScheme) (path : String) (flags uid gid : Nat) :
    Except Nat (Option Nat) × SocketScheme :=
  if path = "" then
    let id := st.next_fd
    (.ok (some id),
     { st with next_fd := id + 1,
               nulls := insertA st.nulls id { flags, uid, gid } })
  else
    match UdpSocket.new_socket st.iface path uid st.scheme_data with
    | .error e => (.error e, st)
    | .ok ((socket_handle, data), iface, scheme_data) =>
      let file : SchemeFile := .socket
        { flags, events := 0, socket_handle,
          read_notified := false, write_notified := false,
          write_timeout := none, read_timeout := none, data }
      let id := st.next_fd
      (.ok (some id),
       { st with next_fd := id + 1, files := insertA st.files id file,
                 iface, scheme_data })

/-- `SocketScheme::close`.  Note the wait-queue retention predicate of
the source compares the packet's `a` field (the verb code) with `fd`. -/
def SocketScheme.close (st : SocketScheme) (fd : Nat) :
    Except Nat (Option Nat) × SocketScheme :=
  match lookupA st.nulls fd with
  | some _ => (.ok (some 0), { st with nulls := removeA st.nulls fd })
  | none =>
    match lookupA st.files fd with
    | none => (.error EBADF, st)
    | some file =>
      let socket_handle := file.socket_handle
      let files1 := removeA st.files fd
      let sock := st.iface.get_socket socket_handle
      let scheme_data := UdpSocket.close_file sock file st.scheme_data
      let wait_queue := st.wait_queue.filter (fun w => w.packet.a != fd)
      let no_refs :=
        !(files1.any (fun kv => kv.1 != fd && kv.2.socket_handle == socket_handle))
      let iface := if no_refs then st.iface.remove_socket socket_handle else st.iface
      (.ok (some 0),
       { st with files := files1, scheme_data, wait_queue, iface })

/-- `SocketScheme::get_setting`.  Returns the byte count and the buffer
after the read; the engine state is not modified by any branch that the
source reaches without mutation. -/
def SocketScheme.get_setting (st : SocketScheme) (fd : Nat) (setting : Setting)
    (buf : List Nat) : Except Nat (Nat × List Nat) :=
  match lookupA st.files fd with
  | none => .error EBADF
  | some (.setting _) => .error EBADF
  | some (.socket file) =>
    match setting with
    | .other _ => .ok (0, buf)   -- `UdpSocket::get_setting` returns `Ok(0)`
    | .ttl =>
      match buf with
      | [] => .error errno.EIO
      | _ :: rest =>
        let sock := st.iface.get_socket file.socket_handle
        .ok (1, sock.hopLimitOr64 :: rest)
    | .readTimeout | .writeTimeout =>
      match setting, file.read_timeout, file.write_timeout with
      | .readTimeout, some read_timeout, _ =>
        if buf.length < timeSpecSize then .ok (0, buf)
        else .ok (timeSpecSize, read_timeout.toBytes ++ buf.drop timeSpecSize)
      | .writeTimeout, _, some write_timeout =>
        if buf.length < timeSpecSize then .ok (0, buf)
        else .ok (timeSpecSize, write_timeout.toBytes ++ buf.drop timeSpecSize)
      | _, _, _ => .ok (0, buf)

/-- `SocketScheme::update_setting`. -/
def SocketScheme.update_setting (st : SocketScheme) (fd : Nat) (setting : Setting)
    (buf : List Nat) : Except Nat (Nat × SocketScheme) :=
  match lookupA st.files fd with
  | none => .error EBADF
  | some (.setting _) => .error EBADF
  | some (.socket file) =>
    match setting with
    | .readTimeout | .writeTimeout =>
      let (timeout, count) : Option TimeSpec × Nat :=
        if buf.length < timeSpecSize then (none, 0)
        else (some (TimeSpec.fromBytes buf), timeSpecSize)
      let file1 :=
        match setting with
        | .readTimeout => { file with read_timeout := timeout }
        | .writeTimeout => { file with write_timeout := timeout }
        | _ => file
      .ok (count, { st with files := insertA st.files fd (.socket file1) })
    | .ttl =>
      match buf with
      | [] => .error errno.EIO
      | hop_limit :: _ =>
        let iface := st.iface.set_socket file.socket_handle
          (fun s => { s with hop_limit := some hop_limit })
        .ok (1, { st with iface })
    | .other _ => .ok (0, st)   -- `UdpSocket::set_setting` returns `Ok(0)`

/-- `SocketScheme::dup`. -/
def SocketScheme.dup (st : SocketScheme) (fd : Nat) (name : String) :
    Except Nat (Option Nat) × SocketScheme :=
  match lookupA st.nulls fd with
  | some null => SocketScheme.open st name null.flags null.uid null.gid
  | none =>
    match lookupA st.files fd with
    | none => (.error EBADF, st)
    | some file =>
      let socket_handle := file.socket_handle
      let settingFile : Option SchemeFile :=
        if name = "hop_limit" then
          some (.setting { socket_handle, fd, setting := .ttl })
        else if name = "read_timeout" then
          some (.setting { socket_handle, fd, setting := .readTimeout })
        else if name = "write_timeout" then
          some (.setting { socket_handle, fd, setting := .writeTimeout })
        else none
      match settingFile with
      | some new_handle =>
        let id := st.next_fd
        (.ok (some id),
         { st with files := insertA st.files id new_handle, next_fd := id + 1 })
      | none =>
        match UdpSocket.dup st.iface file name st.scheme_data with
        | .error e => (.error e, st)
        | .ok (none, scheme_data) => (.ok none, { st with scheme_data })
        | .ok (some (new_handle, update_with), scheme_data) =>
          let files1 :=
            match update_with with
            | some (sh, data) =>
              match file with
              | .socket f =>
                insertA st.files fd (.socket { f with socket_handle := sh, data })
              | .setting _ => st.files
            | none => st.files
          let id := st.next_fd
          (.ok (some id),
           { st with files := insertA files1 id new_handle, next_fd := id + 1,
                     scheme_data })

/-- `SocketScheme::fsync`: looks the fd up in `files` only and returns 0;
no state is read or written beyond the lookup. -/
def SocketScheme.fsync (st : SocketScheme) (fd : Nat) : Except Nat (Option Nat) :=
  match lookupA st.files fd with
  | none => .error EBADF
  | some _ => .ok (some 0)

/-- `SocketScheme::fcntl`. -/
def SocketScheme.fcntl (st : SocketScheme) (fd cmd arg : Nat) :
    Except Nat (Option Nat) × SocketScheme :=
  match lookupA st.nulls fd with
  | some null =>
    if cmd == F_GETFL then (.ok (some null.flags), st)
    else if cmd == F_SETFL then
      (.ok (some 0),
       { st with nulls := insertA st.nulls fd { null with flags := arg &&& usizeNot O_ACCMODE } })
    else (.error EINVAL, st)
  | none =>
    match lookupA st.files fd with
    | none => (.error EBADF, st)
    | some (.socket socket_file) =>
      if cmd == F_GETFL then (.ok (some socket_file.flags), st)
      else if cmd == F_SETFL then
        let files1 := insertA st.files fd
          (.socket { socket_file with flags := arg &&& usizeNot O_ACCMODE })
        (.ok (some 0), { st with files := files1 })
      else (.error EINVAL, st)
    | some (.setting _) => (.error EBADF, st)

/-! ## Shared example states for concrete evaluations -/

/-- A scheme with no handles, no parked requests and a fresh port set. -/
def emptyScheme : SocketScheme :=
  { next_fd := 1, nulls := [], files := [],
    iface := { sockets := [], next_handle := 0 },
    wait_queue := [], scheme_data := PortSet.new 49152 65535 }

/-- A socket handle bound to stack socket 7 with all per-handle state at
its defaults. -/
def exampleSocketFile : SocketFile :=
  { flags := 0, data := { addr := 0, port := 0 }, events := 0, socket_handle := 7,
    read_notified := false, write_notified := false,
    read_timeout := none, write_timeout := none }

/-- A scheme holding the socket handle `1` on stack socket `7` (bound to
local port 5000). -/
def exampleScheme : SocketScheme :=
  { next_fd := 2, nulls := [], files := [(1, .socket exampleSocketFile)],
    iface := { sockets := [(7, { UdpSock.new with endpoint := { addr := 0, port := 5000 } })],
               next_handle := 8 },
    wait_queue := [], scheme_data := PortSet.new 49152 65535 }

/-! ## Claims -/

/-- Claim C1 is right and the code is wrong.  The spec says `close(fd)`
drops every parked entry whose stored request targets `fd`; the request's
fd operand is the packet's `b` field (as `handle_block` reads it), but
the source's retention predicate compares the packet's `a` field — the
verb code — with `fd`.  Evaluated at the failing input: a parked
`SYS_READ` request targeting handle 1 (`b = 1`) survives `close(1)`,
which nevertheless returns 0. -/
theorem claim_C1_close_bug_eval :
    (SocketScheme.close
        { exampleScheme with
            wait_queue := [{ until' := none,
                             packet := { id := 0, pid := 0, uid := 0, gid := 0,
                                         a := SYS_READ, b := 1, c := 0, d := 0 } }] }
        1).1 = .ok (some 0) ∧
    (SocketScheme.close
        { exampleScheme with
            wait_queue := [{ until' := none,
                             packet := { id := 0, pid := 0, uid := 0, gid := 0,
                                         a := SYS_READ, b := 1, c := 0, d := 0 } }] }
        1).2.wait_queue.any (fun w => w.packet.b == 1) = true := by
  exact ⟨rfl, rfl⟩

/-- Claim C3 fails as stated: `fsync` only consults the socket/setting
handle table, so a live null handle is answered with EBADF, not 0. -/
theorem claim_C3_counterexample :
    SocketScheme.fsync
      { emptyScheme with nulls := [(1, { flags := 0, uid := 0, gid := 0 })] } 1 =
    .error EBADF := by
  rfl

/-- Claim C3 (amended): `fsync(fd)` returns 0 and changes no state
exactly when `fd` names a live socket or setting handle; it fails with
EBADF otherwise — including when `fd` names a live null handle. -/
theorem claim_C3_amended (st : SocketScheme) (fd : Nat) :
    (SocketScheme.fsync st fd = .ok (some 0) ↔ (lookupA st.files fd).isSome = true) ∧
    (SocketScheme.fsync st fd = .error EBADF ↔ lookupA st.files fd = none) := by
  unfold SocketScheme.fsync
  rcases lookupA st.files fd with _ | f <;> simp

/-- Witness for the amended claim C3 at a concrete state: the socket
handle 1 of `exampleScheme` fsyncs to 0. -/
theorem claim_C3_amended_witness :
    SocketScheme.fsync exampleScheme 1 = .ok (some 0) :=
  (claim_C3_amended exampleScheme 1).1.mpr (by rfl)

/-- Claim C10: `dup` on a null handle forwards to `open` with the null
handle's saved flags/uid/gid, and does not consume the null handle: the
post-state of that `open` still maps `fd` to the identical null file, so
a later `dup` on `fd` forwards again. -/
theorem claim_C10_dup_null (st : SocketScheme) (fd : Nat) (name : String) (nf : NullFile)
    (h : lookupA st.nulls fd = some nf) (hlt : fd < st.next_fd) :
    SocketScheme.dup st fd name = SocketScheme.open st name nf.flags nf.uid nf.gid ∧
    lookupA (SocketScheme.open st name nf.flags nf.uid nf.gid).2.nulls fd = some nf := by
  constructor
  · unfold SocketScheme.dup
    rw [h]
  · unfold SocketScheme.open
    by_cases he : name = ""
    · rw [if_pos he]
      rw [lookupA_insertA_ne st.nulls st.next_fd fd _ (Nat.ne_of_lt hlt)]
      exact h
    · rw [if_neg he]
      rcases UdpSocket.new_socket st.iface name nf.uid st.scheme_data with e | ⟨⟨sh, d⟩, i2, ps2⟩
      · exact h
      · exact h

/-- Witness for claim C10: duplicating the null handle 9 with an empty
name opens a second null handle and leaves handle 9 untouched. -/
theorem claim_C10_dup_null_witness :
    SocketScheme.dup
        { emptyScheme with nulls := [(9, { flags := 77, uid := 3, gid := 4 })], next_fd := 10 }
        9 "" =
      SocketScheme.open
        { emptyScheme with nulls := [(9, { flags := 77, uid := 3, gid := 4 })], next_fd := 10 }
        "" 77 3 4 ∧
    lookupA (SocketScheme.open
        { emptyScheme with nulls := [(9, { flags := 77, uid := 3, gid := 4 })], next_fd := 10 }
        "" 77 3 4).2.nulls 9 = some { flags := 77, uid := 3, gid := 4 } :=
  claim_C10_dup_null
    { emptyScheme with nulls := [(9, { flags := 77, uid := 3, gid := 4 })], next_fd := 10 }
    9 "" { flags := 77, uid := 3, gid := 4 } (by rfl) (by decide)

/-- Claim C4: on a UDP socket handle, `write_buf` fails with
EADDRNOTAVAIL whenever the per-handle remote endpoint is unspecified;
otherwise, if the socket can currently send, the whole buffer is
accepted (queued to the endpoint) and its length returned; if it cannot
send, the result is EAGAIN when O_NONBLOCK is set in the handle's flags
and a would-block indication (`Ok(None)`) otherwise. -/
theorem claim_C4_udp_write (sock : UdpSock) (file : SocketFile) (buf : List Nat) :
    (file.data.is_specified = false →
       UdpSocket.write_buf sock file buf = .error EADDRNOTAVAIL) ∧
    (file.data.is_specified = true → sock.can_send = true →
       UdpSocket.write_buf sock file buf =
         .ok (some buf.length,
              { sock with tx_queue := sock.tx_queue ++ [(buf, file.data)] })) ∧
    (file.data.is_specified = true → sock.can_send = false →
       (file.flags &&& O_NONBLOCK = O_NONBLOCK →
          UdpSocket.write_buf sock file buf = .error EAGAIN) ∧
       (file.flags &&& O_NONBLOCK ≠ O_NONBLOCK →
          UdpSocket.write_buf sock file buf = .ok (none, sock))) := by
  refine ⟨fun h1 => ?_, fun h1 h2 => ?_, fun h1 h2 => ⟨fun h3 => ?_, fun h3 => ?_⟩⟩
  · simp [UdpSocket.write_buf, h1]
  · simp [UdpSocket.write_buf, h1, h2]
  · simp [UdpSocket.write_buf, h1, h2, h3]
  · simp [UdpSocket.write_buf, h1, h2, h3]

/-- Witness for claim C4: a 3-byte datagram to the specified remote
1.2.3.4:9 is accepted whole on a fresh socket. -/
theorem claim_C4_udp_write_witness :
    UdpSocket.write_buf UdpSock.new
        { exampleSocketFile with data := { addr := 16909060, port := 9 } } [1, 2, 3] =
      .ok (some 3, { UdpSock.new with tx_queue := [([1, 2, 3], { addr := 16909060, port := 9 })] }) :=
  (claim_C4_udp_write UdpSock.new
      { exampleSocketFile with data := { addr := 16909060, port := 9 } } [1, 2, 3]).2.1
    (by rfl) (by rfl)

/-- Claim C7: on a handle that is a null handle, or a socket handle (not
shadowed by a null), `fcntl(F_SETFL, x)` returns 0 and a following
`fcntl(F_GETFL)` returns `x & !O_ACCMODE`; every command other than
F_GETFL and F_SETFL fails with EINVAL. -/
theorem claim_C7_fcntl (st : SocketScheme) (fd x arg cmd : Nat)
    (h : (∃ n, lookupA st.nulls fd = some n) ∨
         (lookupA st.nulls fd = none ∧ ∃ f, lookupA st.files fd = some (.socket f))) :
    (SocketScheme.fcntl st fd F_SETFL x).1 = .ok (some 0) ∧
    (SocketScheme.fcntl (SocketScheme.fcntl st fd F_SETFL x).2 fd F_GETFL arg).1 =
      .ok (some (x &&& usizeNot O_ACCMODE)) ∧
    (cmd ≠ F_GETFL → cmd ≠ F_SETFL →
       (SocketScheme.fcntl st fd cmd arg).1 = .error EINVAL) := by
  rcases h with ⟨n, hn⟩ | ⟨hn, f, hf⟩
  · refine ⟨?_, ?_, fun hc1 hc2 => ?_⟩
    · simp [SocketScheme.fcntl, hn, F_GETFL, F_SETFL]
    · have hstep : (SocketScheme.fcntl st fd F_SETFL x).2 =
          { st with nulls := insertA st.nulls fd { n with flags := x &&& usizeNot O_ACCMODE } } := by
        simp [SocketScheme.fcntl, hn, F_GETFL, F_SETFL]
      rw [hstep]
      simp [SocketScheme.fcntl, lookupA_insertA_self, F_GETFL, F_SETFL]
    · have hc1n : ¬(cmd = 3) := by simpa [F_GETFL] using hc1
      have hc2n : ¬(cmd = 4) := by simpa [F_SETFL] using hc2
      simp [SocketScheme.fcntl, hn, F_GETFL, F_SETFL, hc1n, hc2n]
  · refine ⟨?_, ?_, fun hc1 hc2 => ?_⟩
    · simp [SocketScheme.fcntl, hn, hf, F_GETFL, F_SETFL]
    · have hstep : (SocketScheme.fcntl st fd F_SETFL x).2 =
          { st with files :=
              insertA st.files fd (.socket { f with flags := x &&& usizeNot O_ACCMODE }) } := by
        simp [SocketScheme.fcntl, hn, hf, F_GETFL, F_SETFL]
      rw [hstep]
      have hn2 : lookupA
          ({ st with files :=
              insertA st.files fd (.socket { f with flags := x &&& usizeNot O_ACCMODE }) }
            : SocketScheme).nulls fd = (none : Option NullFile) := hn
      simp [SocketScheme.fcntl, hn2, lookupA_insertA_self, F_GETFL, F_SETFL]
    · have hc1n : ¬(cmd = 3) := by simpa [F_GETFL] using hc1
      have hc2n : ¬(cmd = 4) := by simpa [F_SETFL] using hc2
      simp [SocketScheme.fcntl, hn, hf, F_GETFL, F_SETFL, hc1n, hc2n]

/-- Witness for claim C7 on the socket handle 1 of `exampleScheme` with
flag word `0x34567` and the unsupported command 7. -/
theorem claim_C7_fcntl_witness :
    (SocketScheme.fcntl exampleScheme 1 F_SETFL 0x34567).1 = .ok (some 0) ∧
    (SocketScheme.fcntl (SocketScheme.fcntl exampleScheme 1 F_SETFL 0x34567).2 1 F_GETFL 0).1 =
      .ok (some (0x34567 &&& usizeNot O_ACCMODE)) ∧
    ((7 : Nat) ≠ F_GETFL → (7 : Nat) ≠ F_SETFL →
       (SocketScheme.fcntl exampleScheme 1 7 0).1 = .error EINVAL) :=
  claim_C7_fcntl exampleScheme 1 0x34567 0 7
    (Or.inr ⟨by rfl, exampleSocketFile, by rfl⟩)

/-- `UdpSocket::new_socket` with caller uid 0 is never rejected with
EACCES: the only EACCES exit is the privileged-port check, which
requires a non-zero uid; the remaining failures are EINVAL (ephemeral
exhaustion) and EADDRINUSE (port conflict). -/
theorem new_socket_uid0_not_eacces (iface : Iface) (path : String) (ps : PortSet) :
    UdpSocket.new_socket iface path 0 ps ≠ .error EACCES := by
  intro hcontra
  simp only [UdpSocket.new_socket, bne_self_eq_false, Bool.and_false, Bool.false_eq_true,
    if_false] at hcontra
  split at hcontra
  next e heq =>
    have he : e = EACCES := by simpa using hcontra
    subst he
    split at heq
    · split at heq
      · simp [EINVAL, EACCES] at heq
      · simp at heq
    · split at heq
      · simp at heq
      · simp [EADDRINUSE, EACCES] at heq
  next le ps2 heq => simp at hcontra

/-- Claim C5: a UDP open whose parsed local port lies in (0, 1024] is
rejected with EACCES when the caller uid is non-zero, leaving the whole
scheme state (port set included) unchanged; the same open with uid 0 is
never rejected with EACCES. -/
theorem claim_C5_privileged_port (st : SocketScheme) (path : String) (flags uid gid : Nat)
    (hp : 0 < (parse_endpoint (((splitStr '/' path).drop 1).headD "")).port)
    (hple : (parse_endpoint (((splitStr '/' path).drop 1).headD "")).port ≤ 1024) :
    (uid ≠ 0 → SocketScheme.open st path flags uid gid = (.error EACCES, st)) ∧
    (SocketScheme.open st path flags 0 gid).1 ≠ .error EACCES := by
  have hne : ¬(path = "") := by
    intro hpe
    subst hpe
    revert hp
    decide
  constructor
  · intro hu
    have hns : UdpSocket.new_socket st.iface path uid st.scheme_data = .error EACCES := by
      simp only [UdpSocket.new_socket]
      split
      · rfl
      next hcond =>
        exfalso
        simp only [Bool.and_eq_true, decide_eq_true_eq, bne_iff_ne] at hcond
        exact hcond ⟨⟨hp, hple⟩, hu⟩
    unfold SocketScheme.open
    rw [if_neg hne, hns]
  · unfold SocketScheme.open
    rw [if_neg hne]
    rcases hr : UdpSocket.new_socket st.iface path 0 st.scheme_data with e | ⟨⟨sh, d⟩, i2, ps2⟩
    · have hna := new_socket_uid0_not_eacces st.iface path st.scheme_data
      rw [hr] at hna
      simpa using hna
    · simp

/-- Witness for claim C5: opening `udp:/0.0.0.0:80` as uid 1000 fails
with EACCES and leaves the state unchanged, while uid 0 is not rejected
with EACCES. -/
theorem claim_C5_privileged_port_witness :
    (SocketScheme.open emptyScheme "/0.0.0.0:80" 0 1000 0 = (.error EACCES, emptyScheme)) ∧
    (SocketScheme.open emptyScheme "/0.0.0.0:80" 0 0 0).1 ≠ .error EACCES :=
  ⟨(claim_C5_privileged_port emptyScheme "/0.0.0.0:80" 0 1000 0 (by decide) (by decide)).1
     (by decide),
   (claim_C5_privileged_port emptyScheme "/0.0.0.0:80" 0 1000 0 (by decide) (by decide)).2⟩

/-- Claim C6: reading or writing a read_timeout/write_timeout setting
with a buffer smaller than `TimeSpec` returns 0 with success (the write
clearing the stored timeout), and a read also returns 0 with success
when no timeout is configured, so the two reads are indistinguishable. -/
theorem claim_C6_timeout_small_buffer (st : SocketScheme) (fd : Nat) (file : SocketFile)
    (s : Setting) (buf : List Nat)
    (hf : lookupA st.files fd = some (.socket file))
    (hs : s = .readTimeout ∨ s = .writeTimeout) :
    (buf.length < timeSpecSize →
       SocketScheme.get_setting st fd s buf = .ok (0, buf) ∧
       ∃ st2, SocketScheme.update_setting st fd s buf = .ok (0, st2)) ∧
    (s = .readTimeout → file.read_timeout = none →
       SocketScheme.get_setting st fd s buf = .ok (0, buf)) ∧
    (s = .writeTimeout → file.write_timeout = none →
       SocketScheme.get_setting st fd s buf = .ok (0, buf)) := by
  rcases hs with hs | hs <;> subst hs
  · refine ⟨fun hlen => ⟨?_, ?_⟩, fun _ hnone => ?_, fun hws _ => ?_⟩
    · simp only [SocketScheme.get_setting, hf]
      rcases file.read_timeout with _ | rt <;> simp [hlen]
    · simp only [SocketScheme.update_setting, hf]
      rw [if_pos hlen]
      exact ⟨_, rfl⟩
    · simp only [SocketScheme.get_setting, hf, hnone]
    · exact absurd hws (by simp)
  · refine ⟨fun hlen => ⟨?_, ?_⟩, fun hrs _ => ?_, fun _ hnone => ?_⟩
    · simp only [SocketScheme.get_setting, hf]
      rcases file.write_timeout with _ | wt <;> rcases file.read_timeout with _ | rt <;>
        simp [hlen]
    · simp only [SocketScheme.update_setting, hf]
      rw [if_pos hlen]
      exact ⟨_, rfl⟩
    · exact absurd hrs (by simp)
    · simp only [SocketScheme.get_setting, hf, hnone]

/-- Witness for claim C6: an unset read timeout read through a 3-byte
buffer on the socket handle of `exampleScheme` yields `(0, buf)` for
both the read and the write. -/
theorem claim_C6_timeout_small_buffer_witness :
    SocketScheme.get_setting exampleScheme 1 .readTimeout [0, 0, 0] = .ok (0, [0, 0, 0]) ∧
    ∃ st2, SocketScheme.update_setting exampleScheme 1 .readTimeout [0, 0, 0] = .ok (0, st2) :=
  (claim_C6_timeout_small_buffer exampleScheme 1 exampleSocketFile .readTimeout [0, 0, 0]
      (by rfl) (Or.inl rfl)).1 (by decide)

/-- Claim C9: duplicating a UDP setting handle with a name that is not
one of the three setting names produces a brand-new socket handle at the
next fd on the same socket key, whose per-handle remote endpoint is the
endpoint parsed from the name, with flags 0, empty event mask, cleared
notified flags and no timeouts — nothing is inherited from any socket
handle.  (The socket's local port is re-acquired in the port set.) -/
theorem claim_C9_dup_setting (st : SocketScheme) (fd : Nat) (sf : SettingFile) (name : String)
    (hn : lookupA st.nulls fd = none)
    (hf : lookupA st.files fd = some (.setting sf))
    (h1 : name ≠ "hop_limit") (h2 : name ≠ "read_timeout") (h3 : name ≠ "write_timeout") :
    SocketScheme.dup st fd name =
      (.ok (some st.next_fd),
       { st with
           files := insertA st.files st.next_fd
             (.socket (SocketFile.new_with_data sf.socket_handle (parse_endpoint name))),
           next_fd := st.next_fd + 1,
           scheme_data := st.scheme_data.acquire_port
             ((st.iface.get_socket sf.socket_handle).endpoint.port) }) := by
  simp only [SocketScheme.dup, hn, hf]
  rw [if_neg h1, if_neg h2, if_neg h3]
  simp only [UdpSocket.dup, SchemeFile.socket_handle]

/-- Witness for claim C9: duplicating setting handle 5 (aliasing socket
handle 1 on stack socket 7) with the name `1.2.3.4:53`. -/
theorem claim_C9_dup_setting_witness :
    SocketScheme.dup
        { exampleScheme with
            files := insertA exampleScheme.files 5
              (.setting { fd := 1, socket_handle := 7, setting := .readTimeout }) }
        5 "1.2.3.4:53" =
      (.ok (some 2),
       { ({ exampleScheme with
             files := insertA exampleScheme.files 5
               (.setting { fd := 1, socket_handle := 7, setting := .readTimeout }) }
           : SocketScheme) with
           files := insertA
             (insertA exampleScheme.files 5
               (.setting { fd := 1, socket_handle := 7, setting := .readTimeout }))
             2 (.socket (SocketFile.new_with_data 7 (parse_endpoint "1.2.3.4:53"))),
           next_fd := 3,
           scheme_data := (PortSet.new 49152 65535).acquire_port 5000 }) := by
  have h := claim_C9_dup_setting
      { exampleScheme with
          files := insertA exampleScheme.files 5
            (.setting { fd := 1, socket_handle := 7, setting := .readTimeout }) }
      5 { fd := 1, socket_handle := 7, setting := .readTimeout } "1.2.3.4:53"
      (by rfl) (by rfl) (by decide) (by decide) (by decide)
  exact h

/-- Claim C2 fails as stated: the source removes a blocked entry only
when its deadline is strictly earlier than the sampled time
(`until < now` lexicographically), so an entry whose deadline equals the
sampled monotonic time — deadline ≤ now — survives the walk when its
replay still blocks. -/
theorem claim_C2_counterexample :
    (waitQueueWalk (fun (s : Unit) _ => (s, none)) { sec := 5, nsec := 5 } ()
        [{ until' := some { sec := 5, nsec := 5 },
           packet := { id := 0, pid := 0, uid := 0, gid := 0,
                       a := SYS_READ, b := 1, c := 0, d := 0 } }]).2.1 =
      [{ until' := some { sec := 5, nsec := 5 },
         packet := { id := 0, pid := 0, uid := 0, gid := 0,
                     a := SYS_READ, b := 1, c := 0, d := 0 } }] := by
  rfl

/-- The engine states at which the wait-queue walk examines each entry:
the walk re-invokes the (possibly state-changing) engine on every stored
packet in order, whether or not the entry is removed. -/
def walkStates {St : Type} (step : St → Packet → St × Option Nat) :
    St → List WaitHandle → List St
  | _, [] => []
  | st, w :: rest => st :: walkStates step (step st w.packet).1 rest

/-- The walk's survivors and replies, entry by entry: pairing each
parked entry with the engine state at which it is examined, an entry
whose replay completes is removed, an entry whose replay blocks with a
strictly passed deadline is removed, and every other entry survives;
the replies are, in walk order, the stored packet with `a` overwritten
by the completion value for completing entries and by
`(-ETIMEDOUT) as usize` for removed expired entries. -/
theorem waitQueueWalk_characterization {St : Type} (step : St → Packet → St × Option Nat)
    (now : TimeSpec) (st : St) (q : List WaitHandle) :
    (waitQueueWalk step now st q).2.1 =
      (q.zip (walkStates step st q)).filterMap (fun p =>
        match (step p.2 p.1.packet).2 with
        | some _ => none
        | none =>
          match p.1.until' with
          | some u => if tsLt u now then none else some p.1
          | none => some p.1) ∧
    (waitQueueWalk step now st q).2.2 =
      (q.zip (walkStates step st q)).filterMap (fun p =>
        match (step p.2 p.1.packet).2 with
        | some a => some { p.1.packet with a := a }
        | none =>
          match p.1.until' with
          | some u =>
            if tsLt u now then some { p.1.packet with a := negRet ETIMEDOUT } else none
          | none => none) := by
  induction q generalizing st with
  | nil => simp [waitQueueWalk, walkStates]
  | cons w rest ih =>
    simp only [waitQueueWalk, walkStates]
    rcases hs : step st w.packet with ⟨st1, r⟩
    obtain ⟨ih4, ih5⟩ := ih st1
    rcases hrec : waitQueueWalk step now st1 rest with ⟨st2, rem, rep⟩
    rw [hrec] at ih4 ih5
    dsimp only at ih4 ih5
    simp only [List.zip_cons_cons, List.filterMap_cons]
    rw [hs]
    dsimp only
    rcases r with _ | a
    · rcases hu : w.until' with _ | u
      · dsimp only
        exact ⟨by rw [ih4], ih5⟩
      · dsimp only
        by_cases htl : tsLt u now = true
        · simp only [if_pos htl]
          exact ⟨ih4, by rw [ih5]⟩
        · simp only [if_neg htl]
          exact ⟨by rw [ih4], ih5⟩
    · dsimp only
      exact ⟨ih4, by rw [ih5]⟩

/-- The wait-queue walk's survivor invariants: no surviving entry has a
strictly passed deadline, the survivors are an order-preserving
subsequence of the original queue, and the dropped entries are in
one-to-one correspondence with the replies. -/
theorem waitQueueWalk_invariants {St : Type} (step : St → Packet → St × Option Nat)
    (now : TimeSpec) (st : St) (q : List WaitHandle) :
    (∀ w ∈ (waitQueueWalk step now st q).2.1, ∀ u, w.until' = some u →
       tsLt u now = false) ∧
    (waitQueueWalk step now st q).2.1.Sublist q ∧
    q.length = (waitQueueWalk step now st q).2.1.length +
      (waitQueueWalk step now st q).2.2.length := by
  induction q generalizing st with
  | nil => simp [waitQueueWalk]
  | cons w rest ih =>
    simp only [waitQueueWalk]
    rcases hs : step st w.packet with ⟨st1, r⟩
    obtain ⟨ih1, ih2, ih3⟩ := ih st1
    rcases hrec : waitQueueWalk step now st1 rest with ⟨st2, rem, rep⟩
    rw [hrec] at ih1 ih2 ih3
    dsimp only at ih1 ih2 ih3
    rcases r with _ | a
    · rcases hu : w.until' with _ | u
      · dsimp only
        refine ⟨fun w' hw' => ?_, ih2.cons₂ w, ?_⟩
        · rcases List.mem_cons.mp hw' with h | h
          · subst h
            intro u hu2
            rw [hu] at hu2
            cases hu2
          · exact ih1 w' h
        · simp only [List.length_cons, ih3]
          omega
      · dsimp only
        by_cases htl : tsLt u now = true
        · rw [if_pos htl]
          dsimp only
          refine ⟨ih1, ih2.cons w, ?_⟩
          simp only [List.length_cons, ih3]
          omega
        · rw [if_neg htl]
          dsimp only
          refine ⟨fun w' hw' => ?_, ih2.cons₂ w, ?_⟩
          · rcases List.mem_cons.mp hw' with h | h
            · subst h
              intro u' hu2
              rw [hu] at hu2
              cases hu2
              simpa using htl
            · exact ih1 w' h
          · simp only [List.length_cons, ih3]
            omega
    · dsimp only
      refine ⟨ih1, ih2.cons w, ?_⟩
      simp only [List.length_cons, ih3]
      omega

/-- Claim C2 (amended): after the wait-queue walk of a tick, no parked
entry remains whose deadline is strictly earlier than the monotonic time
sampled for that tick, and the surviving entries are an order-preserving
subsequence of the original queue with exactly one reply per dropped
entry; moreover, entry by entry (each replayed at the engine state the
walk reaches it in), an entry whose replay completes is removed and
replied with the completion value written into its stored packet, an
entry whose replay still blocks and whose deadline has strictly passed
is removed and replied with `(-ETIMEDOUT) as usize`, and every other
entry survives. -/
theorem claim_C2_amended {St : Type} (step : St → Packet → St × Option Nat)
    (now : TimeSpec) (st : St) (q : List WaitHandle) :
    (∀ w ∈ (waitQueueWalk step now st q).2.1, ∀ u, w.until' = some u →
       tsLt u now = false) ∧
    (waitQueueWalk step now st q).2.1.Sublist q ∧
    q.length = (waitQueueWalk step now st q).2.1.length +
      (waitQueueWalk step now st q).2.2.length ∧
    (waitQueueWalk step now st q).2.1 =
      (q.zip (walkStates step st q)).filterMap (fun p =>
        match (step p.2 p.1.packet).2 with
        | some _ => none
        | none =>
          match p.1.until' with
          | some u => if tsLt u now then none else some p.1
          | none => some p.1) ∧
    (waitQueueWalk step now st q).2.2 =
      (q.zip (walkStates step st q)).filterMap (fun p =>
        match (step p.2 p.1.packet).2 with
        | some a => some { p.1.packet with a := a }
        | none =>
          match p.1.until' with
          | some u =>
            if tsLt u now then some { p.1.packet with a := negRet ETIMEDOUT } else none
          | none => none) := by
  obtain ⟨h1, h2, h3⟩ := waitQueueWalk_invariants step now st q
  obtain ⟨h4, h5⟩ := waitQueueWalk_characterization step now st q
  exact ⟨h1, h2, h3, h4, h5⟩

/-- Witness for the amended claim C2: a queue holding one expired entry
(deadline 4 s, sampled time 5 s) whose replay blocks is emptied, and the
single reply is the stored packet with `a` overwritten by
`(-ETIMEDOUT) as usize`. -/
theorem claim_C2_amended_witness :
    (waitQueueWalk (fun (s : Unit) _ => (s, none)) { sec := 5, nsec := 0 } ()
        [{ until' := some { sec := 4, nsec := 0 },
           packet := { id := 0, pid := 0, uid := 0, gid := 0,
                       a := SYS_READ, b := 1, c := 0, d := 0 } }]).2.1.Sublist
      [{ until' := some { sec := 4, nsec := 0 },
         packet := { id := 0, pid := 0, uid := 0, gid := 0,
                     a := SYS_READ, b := 1, c := 0, d := 0 } }] ∧
    ([({ until' := some { sec := 4, nsec := 0 },
         packet := { id := 0, pid := 0, uid := 0, gid := 0,
                     a := SYS_READ, b := 1, c := 0, d := 0 } } : WaitHandle)]).length =
      (waitQueueWalk (fun (s : Unit) _ => (s, none)) { sec := 5, nsec := 0 } ()
        [{ until' := some { sec := 4, nsec := 0 },
           packet := { id := 0, pid := 0, uid := 0, gid := 0,
                       a := SYS_READ, b := 1, c := 0, d := 0 } }]).2.1.length +
      (waitQueueWalk (fun (s : Unit) _ => (s, none)) { sec := 5, nsec := 0 } ()
        [{ until' := some { sec := 4, nsec := 0 },
           packet := { id := 0, pid := 0, uid := 0, gid := 0,
                       a := SYS_READ, b := 1, c := 0, d := 0 } }]).2.2.length ∧
    (waitQueueWalk (fun (s : Unit) _ => (s, none)) { sec := 5, nsec := 0 } ()
        [{ until' := some { sec := 4, nsec := 0 },
           packet := { id := 0, pid := 0, uid := 0, gid := 0,
                       a := SYS_READ, b := 1, c := 0, d := 0 } }]).2.2 =
      [{ id := 0, pid := 0, uid := 0, gid := 0,
         a := negRet ETIMEDOUT, b := 1, c := 0, d := 0 }] :=
  ⟨(claim_C2_amended (fun (s : Unit) _ => (s, none)) { sec := 5, nsec := 0 } ()
      [{ until' := some { sec := 4, nsec := 0 },
         packet := { id := 0, pid := 0, uid := 0, gid := 0,
                     a := SYS_READ, b := 1, c := 0, d := 0 } }]).2.1,
   (claim_C2_amended (fun (s : Unit) _ => (s, none)) { sec := 5, nsec := 0 } ()
      [{ until' := some { sec := 4, nsec := 0 },
         packet := { id := 0, pid := 0, uid := 0, gid := 0,
                     a := SYS_READ, b := 1, c := 0, d := 0 } }]).2.2.1,
   ((claim_C2_amended (fun (s : Unit) _ => (s, none)) { sec := 5, nsec := 0 } ()
      [{ until' := some { sec := 4, nsec := 0 },
         packet := { id := 0, pid := 0, uid := 0, gid := 0,
                     a := SYS_READ, b := 1, c := 0, d := 0 } }]).2.2.2.2).trans (by rfl)⟩

/-- Claim C8: at each notifier evaluation of a socket handle, the
post-state `read_notified` (resp. `write_notified`) flag holds exactly
when the read condition `can_recv || !may_recv` (resp. the write
condition `can_send`) holds and the corresponding event-mask bit is set
— so it holds *only* while condition and mask bit hold; the EVENT_READ
(resp. EVENT_WRITE) bit is emitted precisely when the condition and mask
bit hold and the flag was previously clear, the flag then being set; and
whenever the condition (or the mask bit) is false the flag is cleared. -/
theorem claim_C8_events_edge (canRecv mayRecv canSend : Bool) (f : SocketFile) :
    ∃ revents f2,
      SchemeFile.events canRecv mayRecv canSend (.socket f) = (revents, .socket f2) ∧
      f2.read_notified = ((f.events &&& EVENT_READ == EVENT_READ) && (canRecv || !mayRecv)) ∧
      f2.write_notified = ((f.events &&& EVENT_WRITE == EVENT_WRITE) && canSend) ∧
      ((revents &&& EVENT_READ = EVENT_READ) ↔
        (((f.events &&& EVENT_READ == EVENT_READ) && (canRecv || !mayRecv)) = true ∧
          f.read_notified = false)) ∧
      ((revents &&& EVENT_WRITE = EVENT_WRITE) ↔
        (((f.events &&& EVENT_WRITE == EVENT_WRITE) && canSend) = true ∧
          f.write_notified = false)) := by
  simp only [SchemeFile.events]
  generalize hR : ((f.events &&& EVENT_READ == EVENT_READ) && (canRecv || !mayRecv)) = bR
  generalize hW : ((f.events &&& EVENT_WRITE == EVENT_WRITE) && canSend) = bW
  cases bR <;> cases bW <;>
    cases hrn : f.read_notified <;> cases hwn : f.write_notified <;>
      refine ⟨_, _, rfl, ?_, ?_, ?_, ?_⟩ <;>
        simp [hrn, hwn, EVENT_READ, EVENT_WRITE] <;> decide

/-- Witness for claim C8: a readable-and-writable socket with mask
`READ|WRITE` and both flags clear emits both bits and sets both flags. -/
theorem claim_C8_events_edge_witness :
    ∃ revents f2,
      SchemeFile.events true true true (.socket { exampleSocketFile with events := 3 }) =
        (revents, .socket f2) ∧
      f2.read_notified = ((({ exampleSocketFile with events := 3 }
          : SocketFile).events &&& EVENT_READ == EVENT_READ) && (true || !true)) ∧
      f2.write_notified = ((({ exampleSocketFile with events := 3 }
          : SocketFile).events &&& EVENT_WRITE == EVENT_WRITE) && true) ∧
      ((revents &&& EVENT_READ = EVENT_READ) ↔
        (((({ exampleSocketFile with events := 3 }
            : SocketFile).events &&& EVENT_READ == EVENT_READ) && (true || !true)) = true ∧
          ({ exampleSocketFile with events := 3 } : SocketFile).read_notified = false)) ∧
      ((revents &&& EVENT_WRITE = EVENT_WRITE) ↔
        (((({ exampleSocketFile with events := 3 }
            : SocketFile).events &&& EVENT_WRITE == EVENT_WRITE) && true) = true ∧
          ({ exampleSocketFile with events := 3 } : SocketFile).write_notified = false)) :=
  claim_C8_events_edge true true true { exampleSocketFile with events := 3 }
